import Mathlib

/-!
Shallow embedding of the analytics loader (`src/app/routes/app.analytics.tsx`)
and the theme-merge loader (`src/app/routes/app._index.tsx`) of the
`consra/cloud-computing-project` repository, with proofs about the
properties claimed by its specification.

Instants are modelled at day granularity as integers (absolute day numbers in
the proleptic Gregorian calendar, epoch 1970-01-01).  JavaScript `Date`
mutators (`setDate`, `setMonth`) are modelled by the same field-substitution +
linear-normalisation semantics that the ECMAScript `MakeDay` operation uses:
an out-of-range day-of-month or month index contributes linearly to the
resulting time value.
-/

namespace Analytics

/-- Leap-year test of the proleptic Gregorian calendar (as used by JS `Date`). -/
def isLeap (y : Int) : Bool :=
  decide ((y % 4 = 0 ∧ y % 100 ≠ 0) ∨ y % 400 = 0)

/-- Number of days of month `m` (0-based, January = 0) of year `y`. -/
def daysInMonth (y m : Int) : Int :=
  if m = 1 then (if isLeap y then 29 else 28)
  else if m = 3 ∨ m = 5 ∨ m = 8 ∨ m = 10 then 30
  else 31

/-- Days of year `y` that precede month `m` (0-based, `0 ≤ m ≤ 11`). -/
def cumDaysBeforeMonth (y m : Int) : Int :=
  (if m ≤ 0 then 0 else if m = 1 then 31 else if m = 2 then 59
   else if m = 3 then 90 else if m = 4 then 120 else if m = 5 then 151
   else if m = 6 then 181 else if m = 7 then 212 else if m = 8 then 243
   else if m = 9 then 273 else if m = 10 then 304 else 334)
  + (if 2 ≤ m ∧ isLeap y then 1 else 0)

/-- Leap years strictly before year `y` (an additive offset; only differences
of this function matter to the embedding). -/
def leapCount (y : Int) : Int :=
  (y - 1) / 4 - (y - 1) / 100 + (y - 1) / 400

/-- Days from 1970-01-01 to the first day of year `y` (negative before 1970). -/
def daysBeforeYear (y : Int) : Int :=
  365 * (y - 1970) + leapCount y - leapCount 1970

/-- Absolute day number of the first day of month `m` of year `y`; an
out-of-range month index is normalised the way JS `Date.setMonth` does. -/
def monthStart (y m : Int) : Int :=
  daysBeforeYear (y + m / 12) + cumDaysBeforeMonth (y + m / 12) (m % 12)

/-- A JS `Date` at day granularity: `month` is 0-based, `day` is 1-based.
Fields may be temporarily out of range after a mutator; `toDays` normalises. -/
structure JsDate where
  year : Int
  month : Int
  day : Int
deriving DecidableEq

/-- Absolute day number (days since 1970-01-01) of a `JsDate`; this is the
day-granularity analogue of the ECMAScript time value. -/
def toDays (d : JsDate) : Int :=
  monthStart d.year d.month + d.day - 1

/-- The JS mutation `d.setDate(n)`: replace the day-of-month, keeping year
and month. -/
def jsSetDate (d : JsDate) (n : Int) : JsDate :=
  { d with day := n }

/-- The JS mutation `d.setMonth(m)`: replace the month index, keeping year
and day. -/
def jsSetMonth (d : JsDate) (m : Int) : JsDate :=
  { d with month := m }

/-- A calendar-valid date: month in `0..11`, day in `1..daysInMonth`. -/
def ValidDate (d : JsDate) : Prop :=
  0 ≤ d.month ∧ d.month ≤ 11 ∧ 1 ≤ d.day ∧ d.day ≤ daysInMonth d.year d.month

instance : DecidablePred ValidDate := fun d => by
  unfold ValidDate; infer_instance

/-- The range parameter
`(url.searchParams.get("range") as TimeRange) || "week"`: the JS or-operator
replaces the falsy values `null` and `""` by `"week"` and keeps any other
string unchanged. -/
def parseRange (p : Option String) : String :=
  match p with
  | none => "week"
  | some s => if s = "" then "week" else s

/-- The `switch (range)` of the loader computing `startDate` from `now`:
`"day"` maps to `setDate(getDate() - 1)`, `"month"` maps to
`setMonth(getMonth() - 1)`, everything else (including `"week"`) maps to
`setDate(getDate() - 7)`. -/
def resolveStart (range : String) (now : JsDate) : JsDate :=
  if range = "day" then jsSetDate now (now.day - 1)
  else if range = "month" then jsSetMonth now (now.month - 1)
  else jsSetDate now (now.day - 7)

/-- The divisor of `avgDaily`:
`range === "day" ? 1 : range === "week" ? 7 : 30`. -/
def avgDivisor (range : String) : Nat :=
  if range = "day" then 1 else if range = "week" then 7 else 30

/-- The JS expression `Math.round(n / d)` for natural `n` and positive
natural `d`: round half away from zero, which for nonnegative arguments is
the floor of `n / d + 1 / 2`. -/
def mathRoundDiv (n d : Nat) : Nat :=
  (2 * n + d) / (2 * d)

/-- The length of the month preceding the month of `d` (the month that
`setMonth(getMonth() - 1)` lands in). -/
def prevMonthLen (d : JsDate) : Int :=
  if d.month = 0 then 31 else daysInMonth d.year (d.month - 1)

/-- A `NotFoundError` row of the event store. -/
structure NotFoundError where
  shopDomain : String
  path : String
  referer : Option String
  timestamp : Int
  redirected : Bool
deriving DecidableEq

/-- A `Redirect` row of the event store. -/
structure Redirect where
  shopDomain : String
  createdAt : Int
deriving DecidableEq

/-- The flat metrics object the loader returns (`errors` is `errorSeries`
and the `additionalMetrics` fields are inlined). -/
structure MetricsSnapshot where
  errorSeries : List (Int × Nat)
  topPaths : List (String × Nat)
  topReferrers : List (Option String × Nat)
  totalRedirects : Nat
  totalErrors : Nat
  unfixedErrors : Nat
  avgDaily : Nat
deriving DecidableEq

/-- Descending string order, as in `orderBy` on `path` with direction
`desc`. -/
def strGe (a b : String) : Prop := b ≤ a

instance : DecidableRel strGe := fun a b =>
  inferInstanceAs (Decidable (b ≤ a))

instance : IsTotal String strGe := ⟨fun a b => le_total b a⟩

instance : IsTrans String strGe := ⟨fun _ _ _ h1 h2 => le_trans h2 h1⟩

/-- Descending order on the nullable `referer` column: `NULL` sorts below
every string (as in SQLite), so descending order puts it last. -/
def refGe (a b : Option String) : Prop :=
  @LE.le (WithBot String) _ b a

instance : DecidableRel refGe := fun a b =>
  inferInstanceAs (Decidable (@LE.le (WithBot String) _ b a))

instance : IsTotal (Option String) refGe :=
  ⟨fun a b => @le_total (WithBot String) _ b a⟩

instance : IsTrans (Option String) refGe :=
  ⟨fun _ _ _ h1 h2 => @le_trans (WithBot String) _ _ _ _ h2 h1⟩

/-- Prisma `groupBy { by: [key], _count: true, orderBy: r }`: one row per
distinct key value among the (already `where`-filtered) rows, carrying the
number of rows with that key, ordered by the key under `r`. -/
def groupRows {α κ : Type} [DecidableEq κ] (key : α → κ)
    (r : κ → κ → Prop) [DecidableRel r] (l : List α) : List (κ × Nat) :=
  (List.insertionSort r (l.map key).dedup).map
    fun k => (k, l.countP fun a => decide (key a = k))

/-- The `where` clause of the errors-over-time query: shop scope and
`timestamp: { gte: startDate, lte: now }`. -/
def eventInFullWindow (shop : String) (s n : Int) (e : NotFoundError) : Bool :=
  e.shopDomain == shop && decide (s ≤ e.timestamp) && decide (e.timestamp ≤ n)

/-- The `where` clause shared by the other three error queries: shop scope and
`timestamp: { gte: startDate }` only — no `lte` bound. -/
def eventFromStart (shop : String) (s : Int) (e : NotFoundError) : Bool :=
  e.shopDomain == shop && decide (s ≤ e.timestamp)

/-- Query 1: 404 errors grouped by timestamp, ascending. -/
def errorsQuery (db : List NotFoundError) (shop : String) (s n : Int) :
    List (Int × Nat) :=
  groupRows (fun e => e.timestamp) (· ≤ ·) (db.filter (eventInFullWindow shop s n))

/-- Query 2: top paths — grouped by path, ordered by `path` descending,
`take: 5`. -/
def topPathsQuery (db : List NotFoundError) (shop : String) (s : Int) :
    List (String × Nat) :=
  (groupRows (fun e => e.path) strGe (db.filter (eventFromStart shop s))).take 5

/-- Query 3: `prisma.redirect.count` with `createdAt: { gte: startDate }`. -/
def totalRedirectsQuery (rules : List Redirect) (shop : String) (s : Int) : Nat :=
  (rules.filter fun r => r.shopDomain == shop && decide (s ≤ r.createdAt)).length

/-- Query 4: `prisma.notFoundError.count` with `redirected: false` and
`timestamp: { gte: startDate }`. -/
def unfixedErrorsQuery (db : List NotFoundError) (shop : String) (s : Int) : Nat :=
  (db.filter fun e =>
    e.shopDomain == shop && e.redirected == false && decide (s ≤ e.timestamp)).length

/-- Query 5: top referrers — grouped by referer, ordered by `referer`
descending, `take: 3`. -/
def topReferrersQuery (db : List NotFoundError) (shop : String) (s : Int) :
    List (Option String × Nat) :=
  (groupRows (fun e => e.referer) refGe (db.filter (eventFromStart shop s))).take 3

/-- The reduction `errors.reduce((sum, error) => sum + error._count, 0)`. -/
def sumCounts (series : List (Int × Nat)) : Nat :=
  series.foldl (fun acc g => acc + g.2) 0

/-- The loader value `totalErrors`. -/
def totalErrorsOf (db : List NotFoundError) (shop : String) (s n : Int) : Nat :=
  sumCounts (errorsQuery db shop s n)

/-- The lower window bound (as an absolute day number) the loader derives
from the `range` search parameter. -/
def windowStartI (param : Option String) (now : JsDate) : Int :=
  toDays (resolveStart (parseRange param) now)

/-- The whole metrics computation of the `app.analytics` loader. -/
def loaderCompute (errDb : List NotFoundError) (redDb : List Redirect)
    (shop : String) (param : Option String) (now : JsDate) : MetricsSnapshot :=
  { errorSeries := errorsQuery errDb shop (windowStartI param now) (toDays now)
    topPaths := topPathsQuery errDb shop (windowStartI param now)
    topReferrers := topReferrersQuery errDb shop (windowStartI param now)
    totalRedirects := totalRedirectsQuery redDb shop (windowStartI param now)
    totalErrors := totalErrorsOf errDb shop (windowStartI param now) (toDays now)
    unfixedErrors := unfixedErrorsQuery errDb shop (windowStartI param now)
    avgDaily := mathRoundDiv
      (totalErrorsOf errDb shop (windowStartI param now) (toDays now))
      (avgDivisor (parseRange param)) }

/-- Semantics of `Promise.all` on five settled promises: the first rejection
(in position order) rejects the whole, otherwise all five values resolve. -/
def promiseAll5 {ε α β γ δ ζ : Type} (p1 : Except ε α) (p2 : Except ε β)
    (p3 : Except ε γ) (p4 : Except ε δ) (p5 : Except ε ζ) :
    Except ε (α × β × γ × δ × ζ) := do
  let a ← p1
  let b ← p2
  let c ← p3
  let d ← p4
  let e ← p5
  pure (a, b, c, d, e)

/-- The loader with fallible store queries: awaits all five results via
`promiseAll5` (in the destructuring order `[errors, topPaths, totalRedirects,
unfixedErrors, topReferrers]` of the source) and only then derives
`totalErrors` and `avgDaily` and assembles the snapshot. -/
def loaderTry {ε : Type} (p1 : Except ε (List (Int × Nat)))
    (p2 : Except ε (List (String × Nat))) (p3 : Except ε Nat)
    (p4 : Except ε Nat) (p5 : Except ε (List (Option String × Nat)))
    (range : String) : Except ε MetricsSnapshot :=
  match promiseAll5 p1 p2 p3 p4 p5 with
  | .error err => .error err
  | .ok (errs, tp, tr, ue, tref) =>
    .ok { errorSeries := errs
          topPaths := tp
          topReferrers := tref
          totalRedirects := tr
          totalErrors := sumCounts errs
          unfixedErrors := ue
          avgDaily := mathRoundDiv (sumCounts errs) (avgDivisor range) }

end Analytics

namespace Themes

/-- A theme node as returned by the platform GraphQL query
(`themes(first: 10) { nodes { id name role } }`). -/
structure PlatformTheme where
  id : String
  name : String
  role : String
deriving DecidableEq

/-- A `ThemeStatus` row of the local store. -/
structure ThemeStatus where
  shopDomain : String
  themeId : String
  isActive : Bool
deriving DecidableEq

/-- A merged theme as produced by the index loader. -/
structure MergedTheme where
  id : String
  name : String
  role : String
  isActive : Bool
deriving DecidableEq

/-- Lookup in `new Map(themeStatuses.map(status => [status.themeId,
status.isActive]))`: the JS `Map` constructor keeps the last entry for a
duplicated key, so lookup returns the value of the last matching row. -/
def statusLookup (rows : List ThemeStatus) (tid : String) : Option Bool :=
  (rows.reverse.find? fun r => r.themeId == tid).map fun r => r.isActive

/-- The merge `data.data.themes.nodes.map(theme => ({ ...theme, isActive:
statusMap.get(theme.id) || false }))`; `undefined || false` and
`false || false` are both `false`, so this is a default of `false`. -/
def mergeThemes (nodes : List PlatformTheme) (rows : List ThemeStatus) :
    List MergedTheme :=
  nodes.map fun t =>
    { id := t.id, name := t.name, role := t.role,
      isActive := (statusLookup rows t.id).getD false }

/-- The theme list computed by the index loader: statuses are fetched with
`where: { shopDomain: session.shop }` and merged into the platform list. -/
def loaderThemes (nodes : List PlatformTheme) (rows : List ThemeStatus)
    (shop : String) : List MergedTheme :=
  mergeThemes nodes (rows.filter fun r => r.shopDomain == shop)

end Themes

namespace Analytics

/-! ### Window-length arithmetic -/

theorem leapCount_step (y : Int) :
    leapCount (y + 1) - leapCount y = if isLeap y then 1 else 0 := by
  rw [leapCount, leapCount, isLeap]
  by_cases h : (y % 4 = 0 ∧ y % 100 ≠ 0) ∨ y % 400 = 0
  · rw [if_pos (by simpa using h)]
    omega
  · rw [if_neg (by simpa using h)]
    omega

theorem cumDaysBeforeMonth_zero (y : Int) : cumDaysBeforeMonth y 0 = 0 := by
  norm_num [cumDaysBeforeMonth]

theorem cumDaysBeforeMonth_eleven (y : Int) :
    cumDaysBeforeMonth y 11 = 334 + (if isLeap y then 1 else 0) := by
  norm_num [cumDaysBeforeMonth]

theorem monthStart_zero_sub (y : Int) :
    monthStart y 0 - monthStart y (0 - 1) = 31 := by
  have h := leapCount_step (y - 1)
  rw [show y - 1 + 1 = y by ring] at h
  have e1 : (0 : Int) / 12 = 0 := by decide
  have e2 : (0 - 1 : Int) / 12 = -1 := by decide
  have e3 : (0 : Int) % 12 = 0 := by decide
  have e4 : (0 - 1 : Int) % 12 = 11 := by decide
  rw [monthStart, monthStart, e1, e2, e3, e4, cumDaysBeforeMonth_zero,
    cumDaysBeforeMonth_eleven, show y + (-1 : Int) = y - 1 by ring,
    show y + (0 : Int) = y by ring]
  unfold daysBeforeYear
  cases hL : isLeap (y - 1) <;>
    simp only [hL, Bool.false_eq_true, if_false, eq_self_iff_true, if_true]
      at h ⊢ <;>
    omega

theorem monthStart_pos_sub (y m : Int) (h0 : 1 ≤ m) (h1 : m ≤ 11) :
    monthStart y m - monthStart y (m - 1) = daysInMonth y (m - 1) := by
  have e1 : m / 12 = 0 := by omega
  have e2 : (m - 1) / 12 = 0 := by omega
  have e3 : m % 12 = m := by omega
  have e4 : (m - 1) % 12 = m - 1 := by omega
  rw [monthStart, monthStart, e1, e2, e3, e4,
    show y + (0 : Int) = y by ring]
  interval_cases m <;>
    cases hL : isLeap y <;>
      norm_num [cumDaysBeforeMonth, daysInMonth, hL]

theorem window_day (now : JsDate) :
    toDays now - toDays (resolveStart "day" now) = 1 := by
  rw [resolveStart, if_pos rfl]
  simp only [toDays, jsSetDate]
  omega

theorem window_week (now : JsDate) :
    toDays now - toDays (resolveStart "week" now) = 7 := by
  rw [resolveStart, if_neg (by decide), if_neg (by decide)]
  simp only [toDays, jsSetDate]
  omega

theorem window_other (s : String) (hd : s ≠ "day") (hm : s ≠ "month")
    (now : JsDate) :
    toDays now - toDays (resolveStart s now) = 7 := by
  rw [resolveStart, if_neg hd, if_neg hm]
  simp only [toDays, jsSetDate]
  omega

theorem window_month (now : JsDate) (h : ValidDate now) :
    toDays now - toDays (resolveStart "month" now) = prevMonthLen now := by
  rw [resolveStart, if_neg (by decide), if_pos rfl]
  simp only [toDays, jsSetMonth, prevMonthLen]
  obtain ⟨h0, h1, _, _⟩ := h
  by_cases hz : now.month = 0
  · rw [if_pos hz, hz]
    have := monthStart_zero_sub now.year
    omega
  · rw [if_neg hz]
    have := monthStart_pos_sub now.year now.month (by omega) h1
    omega

theorem daysInMonth_bounds (y m : Int) :
    28 ≤ daysInMonth y m ∧ daysInMonth y m ≤ 31 := by
  unfold daysInMonth
  split
  · split <;> omega
  · split <;> omega

theorem prevMonthLen_bounds (d : JsDate) :
    28 ≤ prevMonthLen d ∧ prevMonthLen d ≤ 31 := by
  unfold prevMonthLen
  split
  · omega
  · exact daysInMonth_bounds d.year (d.month - 1)

/-! ### Counting lemmas: group counts add up over the filtered rows -/

theorem countP_not_add {α : Type} (p : α → Bool) (l : List α) :
    l.countP p + l.countP (fun a => !p a) = l.length := by
  induction l with
  | nil => rfl
  | cons a t ih =>
    simp only [List.countP_cons, List.length_cons]
    cases h : p a <;> simp [h] <;> omega

theorem sum_countP_keys {α κ : Type} [DecidableEq κ] (key : α → κ) :
    ∀ keys : List κ, keys.Nodup → ∀ l : List α, (∀ a ∈ l, key a ∈ keys) →
      (keys.map fun k => l.countP fun a => decide (key a = k)).sum = l.length := by
  intro keys
  induction keys with
  | nil =>
    intro _ l hcov
    match l with
    | [] => simp
    | a :: t =>
      exact absurd (hcov a (List.mem_cons_self a t)) (List.not_mem_nil (key a))
  | cons k ks ih =>
    intro hnd l hcov
    obtain ⟨hk, hnd'⟩ := List.nodup_cons.mp hnd
    have hlen : l.countP (fun a => decide (key a = k))
        + (l.filter fun a => !decide (key a = k)).length = l.length := by
      rw [← List.countP_eq_length_filter]
      exact countP_not_add (fun a => decide (key a = k)) l
    have hcong : ∀ k' ∈ ks,
        (l.filter fun a => !decide (key a = k)).countP
            (fun a => decide (key a = k'))
          = l.countP fun a => decide (key a = k') := by
      intro k' hk'
      rw [List.countP_filter]
      congr 1
      funext a
      by_cases h1 : key a = k'
      · simp [h1, show ¬(k' = k) from fun e => hk (e ▸ hk')]
      · simp [h1]
    have hcov2 : ∀ a ∈ (l.filter fun a => !decide (key a = k)), key a ∈ ks := by
      intro a ha
      have hmem := List.mem_filter.mp ha
      have hne : ¬(key a = k) := by simpa using hmem.2
      rcases List.mem_cons.mp (hcov a hmem.1) with h | h
      · exact absurd h hne
      · exact h
    have hsum := ih hnd' (l.filter fun a => !decide (key a = k)) hcov2
    rw [List.map_cons, List.sum_cons]
    rw [show (ks.map fun k' => l.countP fun a => decide (key a = k'))
        = ks.map fun k' =>
            (l.filter fun a => !decide (key a = k)).countP
              fun a => decide (key a = k') from
      (List.map_congr_left fun k' hk' => (hcong k' hk').symm)]
    omega

theorem groupRows_snd_sum {α κ : Type} [DecidableEq κ] (key : α → κ)
    (r : κ → κ → Prop) [DecidableRel r] (l : List α) :
    ((groupRows key r l).map Prod.snd).sum = l.length := by
  unfold groupRows
  rw [List.map_map]
  have hperm := (List.perm_insertionSort r (l.map key).dedup).map
    fun k => l.countP fun a => decide (key a = k)
  rw [show ((List.insertionSort r (l.map key).dedup).map
      (Prod.snd ∘ fun k => (k, l.countP fun a => decide (key a = k))))
      = (List.insertionSort r (l.map key).dedup).map
          fun k => l.countP fun a => decide (key a = k) from rfl]
  rw [hperm.sum_eq]
  exact sum_countP_keys key _ (List.nodup_dedup _) l
    fun a ha => List.mem_dedup.mpr (List.mem_map_of_mem key ha)

theorem sumCounts_eq {series : List (Int × Nat)} :
    sumCounts series = (series.map Prod.snd).sum := by
  suffices h : ∀ (l : List (Int × Nat)) (c : Nat),
      l.foldl (fun acc g => acc + g.2) c = c + (l.map Prod.snd).sum by
    simpa using h series 0
  intro l
  induction l with
  | nil => simp
  | cons a t ih =>
    intro c
    simp [List.foldl_cons, ih]
    omega

/-- The loader field `totalErrors` counts exactly the rows matched by the
errors-over-time `where` clause. -/
theorem totalErrorsOf_eq_length (db : List NotFoundError) (shop : String)
    (s n : Int) :
    totalErrorsOf db shop s n = (db.filter (eventInFullWindow shop s n)).length := by
  unfold totalErrorsOf errorsQuery
  rw [sumCounts_eq, groupRows_snd_sum]

/-! ### Ordering and membership facts about grouped queries -/

theorem groupRows_mem_snd {α κ : Type} [DecidableEq κ] (key : α → κ)
    (r : κ → κ → Prop) [DecidableRel r] (l : List α) :
    ∀ p ∈ groupRows key r l, p.2 = l.countP fun a => decide (key a = p.1) := by
  intro p hp
  unfold groupRows at hp
  rcases List.mem_map.mp hp with ⟨k, _, rfl⟩
  rfl

theorem groupRows_pairwise {α κ : Type} [DecidableEq κ] (key : α → κ)
    (r : κ → κ → Prop) [DecidableRel r] [IsTotal κ r] [IsTrans κ r]
    (l : List α) :
    List.Pairwise (fun p q : κ × Nat => r p.1 q.1) (groupRows key r l) := by
  unfold groupRows
  rw [List.pairwise_map]
  exact List.sorted_insertionSort r _

/-! ### Out-of-window rows and each query -/

theorem eventInFullWindow_false_below {shop : String} {s n : Int}
    {e : NotFoundError} (h : e.timestamp < s) :
    eventInFullWindow shop s n e = false := by
  unfold eventInFullWindow
  rw [decide_eq_false (by omega : ¬s ≤ e.timestamp)]
  simp

theorem eventInFullWindow_false_above {shop : String} {s n : Int}
    {e : NotFoundError} (h : n < e.timestamp) :
    eventInFullWindow shop s n e = false := by
  unfold eventInFullWindow
  rw [decide_eq_false (by omega : ¬e.timestamp ≤ n)]
  simp

theorem eventFromStart_false_below {shop : String} {s : Int}
    {e : NotFoundError} (h : e.timestamp < s) :
    eventFromStart shop s e = false := by
  unfold eventFromStart
  rw [decide_eq_false (by omega : ¬s ≤ e.timestamp)]
  simp

theorem errorsQuery_cons_skip {db : List NotFoundError} {shop : String}
    {s n : Int} {e : NotFoundError} (h : eventInFullWindow shop s n e = false) :
    errorsQuery (e :: db) shop s n = errorsQuery db shop s n := by
  unfold errorsQuery
  rw [List.filter_cons_of_neg (by simp [h])]

theorem totalErrorsOf_cons_skip {db : List NotFoundError} {shop : String}
    {s n : Int} {e : NotFoundError} (h : eventInFullWindow shop s n e = false) :
    totalErrorsOf (e :: db) shop s n = totalErrorsOf db shop s n := by
  unfold totalErrorsOf
  rw [errorsQuery_cons_skip h]

theorem topPathsQuery_cons_skip {db : List NotFoundError} {shop : String}
    {s : Int} {e : NotFoundError} (h : eventFromStart shop s e = false) :
    topPathsQuery (e :: db) shop s = topPathsQuery db shop s := by
  unfold topPathsQuery
  rw [List.filter_cons_of_neg (by simp [h])]

theorem topReferrersQuery_cons_skip {db : List NotFoundError} {shop : String}
    {s : Int} {e : NotFoundError} (h : eventFromStart shop s e = false) :
    topReferrersQuery (e :: db) shop s = topReferrersQuery db shop s := by
  unfold topReferrersQuery
  rw [List.filter_cons_of_neg (by simp [h])]

theorem unfixedErrorsQuery_cons_skip {db : List NotFoundError} {shop : String}
    {s : Int} {e : NotFoundError} (h : e.timestamp < s) :
    unfixedErrorsQuery (e :: db) shop s = unfixedErrorsQuery db shop s := by
  unfold unfixedErrorsQuery
  rw [List.filter_cons_of_neg]
  rw [decide_eq_false (by omega : ¬s ≤ e.timestamp)]
  simp

theorem totalRedirectsQuery_cons_skip {rules : List Redirect} {shop : String}
    {s : Int} {r : Redirect} (h : r.createdAt < s) :
    totalRedirectsQuery (r :: rules) shop s = totalRedirectsQuery rules shop s := by
  unfold totalRedirectsQuery
  rw [List.filter_cons_of_neg]
  rw [decide_eq_false (by omega : ¬s ≤ r.createdAt)]
  simp

end Analytics

namespace Themes

theorem statusLookup_eq_none_iff (rows : List ThemeStatus) (tid : String) :
    statusLookup rows tid = none ↔ ∀ r ∈ rows, r.themeId ≠ tid := by
  unfold statusLookup
  rw [Option.map_eq_none', List.find?_eq_none]
  constructor
  · intro h r hr
    have := h r (List.mem_reverse.mpr hr)
    simpa using this
  · intro h r hr
    have := h r (List.mem_reverse.mp hr)
    simpa using this

end Themes

/-! ## Claims -/

namespace Analytics

/-- C3, counterexample: on 2025-08-15 (a valid date) the `"month"` window is
31 days long — the length of the preceding calendar month of July — not
exactly 30 days as claimed. -/
theorem C3_counterexample :
    ValidDate ⟨2025, 7, 15⟩ ∧
    toDays ⟨2025, 7, 15⟩ - toDays (resolveStart "month" ⟨2025, 7, 15⟩) ≠ 30 := by
  constructor
  · decide
  · decide

/-- C3, amended: for every valid `now`, the resolved window is exactly 1 day
long for `"day"`, exactly 7 days for `"week"` and for every unrecognized
range string, and for `"month"` it is one calendar month long — the length of
the preceding month, between 28 and 31 days, rather than a fixed 30 days. -/
theorem C3_window_lengths (now : JsDate) (h : ValidDate now) :
    toDays now - toDays (resolveStart "day" now) = 1 ∧
    toDays now - toDays (resolveStart "week" now) = 7 ∧
    (∀ s : String, s ≠ "day" → s ≠ "month" →
        toDays now - toDays (resolveStart s now) = 7) ∧
    toDays now - toDays (resolveStart "month" now) = prevMonthLen now ∧
    28 ≤ prevMonthLen now ∧ prevMonthLen now ≤ 31 :=
  ⟨window_day now, window_week now, fun s hd hm => window_other s hd hm now,
   window_month now h, (prevMonthLen_bounds now).1, (prevMonthLen_bounds now).2⟩

/-- Witness for C3 at the concrete date 2025-08-15 and range `"quarter"`. -/
theorem C3_window_lengths_witness :
    ValidDate ⟨2025, 7, 15⟩ ∧
    ("quarter" ≠ "day" ∧ "quarter" ≠ "month") ∧
    toDays ⟨2025, 7, 15⟩ - toDays (resolveStart "quarter" ⟨2025, 7, 15⟩) = 7 ∧
    toDays ⟨2025, 7, 15⟩ - toDays (resolveStart "month" ⟨2025, 7, 15⟩)
      = prevMonthLen ⟨2025, 7, 15⟩ := by
  refine ⟨by decide, ⟨by decide, by decide⟩, ?_, ?_⟩
  · exact (C3_window_lengths ⟨2025, 7, 15⟩ (by decide)).2.2.1 "quarter"
      (by decide) (by decide)
  · exact (C3_window_lengths ⟨2025, 7, 15⟩ (by decide)).2.2.2.1

/-- C1, counterexample: an event whose timestamp lies strictly after `now` —
outside the `[startDate, now]` window — nevertheless changes the computed
snapshot, because the queries behind `topPaths`, `topReferrers` and
`unfixedErrors` apply no upper bound. -/
theorem C1_counterexample :
    (⟨"s", "/late", some "r", toDays ⟨2025, 7, 15⟩ + 1, false⟩ :
        NotFoundError).timestamp > toDays ⟨2025, 7, 15⟩ ∧
    loaderCompute [⟨"s", "/late", some "r", toDays ⟨2025, 7, 15⟩ + 1, false⟩]
        [] "s" (some "week") ⟨2025, 7, 15⟩
      ≠ loaderCompute [] [] "s" (some "week") ⟨2025, 7, 15⟩ := by
  constructor
  · decide
  · decide

/-- C1, amended: every metric applies the lower bound `startDate` — a row
dated before it never affects the snapshot — but only `errorSeries` and the
derived `totalErrors` (hence `avgDaily`) also apply the upper bound `now`;
the four other queries bound the timestamp from below only. -/
theorem C1_window_scope (errDb : List NotFoundError) (redDb : List Redirect)
    (shop : String) (param : Option String) (now : JsDate)
    (e : NotFoundError) (rr : Redirect) :
    (e.timestamp < windowStartI param now →
      loaderCompute (e :: errDb) redDb shop param now
        = loaderCompute errDb redDb shop param now) ∧
    (rr.createdAt < windowStartI param now →
      loaderCompute errDb (rr :: redDb) shop param now
        = loaderCompute errDb redDb shop param now) ∧
    (toDays now < e.timestamp →
      errorsQuery (e :: errDb) shop (windowStartI param now) (toDays now)
          = errorsQuery errDb shop (windowStartI param now) (toDays now) ∧
      totalErrorsOf (e :: errDb) shop (windowStartI param now) (toDays now)
          = totalErrorsOf errDb shop (windowStartI param now) (toDays now)) := by
  refine ⟨fun h => ?_, fun h => ?_, fun h => ?_⟩
  · have h1 : errorsQuery (e :: errDb) shop (windowStartI param now)
          (toDays now)
        = errorsQuery errDb shop (windowStartI param now) (toDays now) :=
      errorsQuery_cons_skip (eventInFullWindow_false_below h)
    have h2 : topPathsQuery (e :: errDb) shop (windowStartI param now)
        = topPathsQuery errDb shop (windowStartI param now) :=
      topPathsQuery_cons_skip (eventFromStart_false_below h)
    have h3 : topReferrersQuery (e :: errDb) shop (windowStartI param now)
        = topReferrersQuery errDb shop (windowStartI param now) :=
      topReferrersQuery_cons_skip (eventFromStart_false_below h)
    have h4 : unfixedErrorsQuery (e :: errDb) shop (windowStartI param now)
        = unfixedErrorsQuery errDb shop (windowStartI param now) :=
      unfixedErrorsQuery_cons_skip h
    have h5 : totalErrorsOf (e :: errDb) shop (windowStartI param now)
          (toDays now)
        = totalErrorsOf errDb shop (windowStartI param now) (toDays now) :=
      totalErrorsOf_cons_skip (eventInFullWindow_false_below h)
    unfold loaderCompute
    rw [h1, h2, h3, h4, h5]
  · have h4 : totalRedirectsQuery (rr :: redDb) shop (windowStartI param now)
        = totalRedirectsQuery redDb shop (windowStartI param now) :=
      totalRedirectsQuery_cons_skip h
    unfold loaderCompute
    rw [h4]
  · exact ⟨errorsQuery_cons_skip (eventInFullWindow_false_above h),
      totalErrorsOf_cons_skip (eventInFullWindow_false_above h)⟩

/-- Witness for C1 at a concrete event dated one day before the window. -/
theorem C1_window_scope_witness :
    (⟨"s", "/old", none, windowStartI (some "week") ⟨2025, 7, 15⟩ - 1, false⟩ :
        NotFoundError).timestamp < windowStartI (some "week") ⟨2025, 7, 15⟩ ∧
    loaderCompute
        [⟨"s", "/old", none, windowStartI (some "week") ⟨2025, 7, 15⟩ - 1, false⟩]
        [] "s" (some "week") ⟨2025, 7, 15⟩
      = loaderCompute [] [] "s" (some "week") ⟨2025, 7, 15⟩ :=
  ⟨by decide,
   (C1_window_scope [] [] "s" (some "week") ⟨2025, 7, 15⟩
      ⟨"s", "/old", none, windowStartI (some "week") ⟨2025, 7, 15⟩ - 1, false⟩
      ⟨"s", 0⟩).1 (by decide)⟩

/-- C7: `totalErrors` is the sum of the per-bucket counts of `errorSeries`,
and both equal the number of rows matched by the errors-over-time query. -/
theorem C7_totalErrors (errDb : List NotFoundError) (redDb : List Redirect)
    (shop : String) (param : Option String) (now : JsDate) :
    (loaderCompute errDb redDb shop param now).totalErrors
      = ((loaderCompute errDb redDb shop param now).errorSeries.map Prod.snd).sum ∧
    (loaderCompute errDb redDb shop param now).totalErrors
      = (errDb.filter
          (eventInFullWindow shop (windowStartI param now) (toDays now))).length := by
  constructor
  · exact sumCounts_eq
  · exact totalErrorsOf_eq_length errDb shop (windowStartI param now) (toDays now)

/-- C9: the fan-out composition either propagates the error of a failing
query, or — when all five succeed — returns the complete snapshot assembled
from all five results; no partial snapshot exists. -/
theorem C9_fail_fast {ε : Type} (p1 : Except ε (List (Int × Nat)))
    (p2 : Except ε (List (String × Nat))) (p3 : Except ε Nat)
    (p4 : Except ε Nat) (p5 : Except ε (List (Option String × Nat)))
    (range : String) :
    (∃ err, loaderTry p1 p2 p3 p4 p5 range = .error err ∧
      (p1 = .error err ∨ p2 = .error err ∨ p3 = .error err ∨
       p4 = .error err ∨ p5 = .error err)) ∨
    (∃ a b c d e, p1 = .ok a ∧ p2 = .ok b ∧ p3 = .ok c ∧ p4 = .ok d ∧
      p5 = .ok e ∧
      loaderTry p1 p2 p3 p4 p5 range
        = .ok { errorSeries := a, topPaths := b, topReferrers := e,
                totalRedirects := c, totalErrors := sumCounts a,
                unfixedErrors := d,
                avgDaily := mathRoundDiv (sumCounts a) (avgDivisor range) }) := by
  rcases p1 with err | a
  · exact Or.inl ⟨err, rfl, Or.inl rfl⟩
  rcases p2 with err | b
  · exact Or.inl ⟨err, rfl, Or.inr (Or.inl rfl)⟩
  rcases p3 with err | c
  · exact Or.inl ⟨err, rfl, Or.inr (Or.inr (Or.inl rfl))⟩
  rcases p4 with err | d
  · exact Or.inl ⟨err, rfl, Or.inr (Or.inr (Or.inr (Or.inl rfl)))⟩
  rcases p5 with err | e
  · exact Or.inl ⟨err, rfl, Or.inr (Or.inr (Or.inr (Or.inr rfl)))⟩
  exact Or.inr ⟨a, b, c, d, e, rfl, rfl, rfl, rfl, rfl, rfl⟩

/-- C2, counterexample: on the same store contents, range `"quarter"` and
range `"week"` produce different snapshots — the window coincides but
`avgDaily` divides by 30 instead of 7 (here 4 errors give 0 versus 1). -/
theorem C2_counterexample :
    loaderCompute
        (List.replicate 4 ⟨"s", "/a", none, toDays ⟨2025, 7, 15⟩, false⟩) []
        "s" (some "quarter") ⟨2025, 7, 15⟩
      ≠ loaderCompute
        (List.replicate 4 ⟨"s", "/a", none, toDays ⟨2025, 7, 15⟩, false⟩) []
        "s" (some "week") ⟨2025, 7, 15⟩ := by
  decide

/-- C2, amended: a range value other than `"day"`, `"week"`, `"month"` and
`""` resolves to the week window, so every store-query metric equals its
`"week"` counterpart; `avgDaily` however falls into the 30-divisor branch
instead of the 7-divisor branch of `"week"`, so the snapshots may differ in
`avgDaily` alone. -/
theorem C2_unsupported_range (errDb : List NotFoundError)
    (redDb : List Redirect) (shop : String) (now : JsDate) (s : String)
    (h1 : s ≠ "day") (h2 : s ≠ "week") (h3 : s ≠ "month") (h4 : s ≠ "") :
    (loaderCompute errDb redDb shop (some s) now).errorSeries
        = (loaderCompute errDb redDb shop (some "week") now).errorSeries ∧
    (loaderCompute errDb redDb shop (some s) now).topPaths
        = (loaderCompute errDb redDb shop (some "week") now).topPaths ∧
    (loaderCompute errDb redDb shop (some s) now).topReferrers
        = (loaderCompute errDb redDb shop (some "week") now).topReferrers ∧
    (loaderCompute errDb redDb shop (some s) now).totalRedirects
        = (loaderCompute errDb redDb shop (some "week") now).totalRedirects ∧
    (loaderCompute errDb redDb shop (some s) now).unfixedErrors
        = (loaderCompute errDb redDb shop (some "week") now).unfixedErrors ∧
    (loaderCompute errDb redDb shop (some s) now).totalErrors
        = (loaderCompute errDb redDb shop (some "week") now).totalErrors ∧
    (loaderCompute errDb redDb shop (some s) now).avgDaily
        = mathRoundDiv
            (loaderCompute errDb redDb shop (some "week") now).totalErrors 30 ∧
    (loaderCompute errDb redDb shop (some "week") now).avgDaily
        = mathRoundDiv
            (loaderCompute errDb redDb shop (some "week") now).totalErrors 7 := by
  have hp : parseRange (some s) = s := by
    show (if s = "" then "week" else s) = s
    rw [if_neg h4]
  have hpw : parseRange (some "week") = "week" := rfl
  have hres : resolveStart s now = resolveStart "week" now := by
    rw [resolveStart, if_neg h1, if_neg h3, resolveStart,
      if_neg (by decide), if_neg (by decide)]
  have hws : windowStartI (some s) now = windowStartI (some "week") now := by
    unfold windowStartI
    rw [hp, hpw, hres]
  have hdiv : avgDivisor s = 30 := by
    unfold avgDivisor
    rw [if_neg h1, if_neg h2]
  unfold loaderCompute
  rw [hws, hp, hpw, hdiv]
  exact ⟨rfl, rfl, rfl, rfl, rfl, rfl, rfl, rfl⟩

/-- Witness for C2 at range `"quarter"` on four in-window error events. -/
theorem C2_unsupported_range_witness :
    ("quarter" ≠ "day" ∧ "quarter" ≠ "week" ∧ "quarter" ≠ "month" ∧
      "quarter" ≠ "") ∧
    (loaderCompute
        (List.replicate 4 ⟨"s", "/a", none, toDays ⟨2025, 7, 15⟩, false⟩) []
        "s" (some "quarter") ⟨2025, 7, 15⟩).avgDaily
      = mathRoundDiv
          (loaderCompute
            (List.replicate 4 ⟨"s", "/a", none, toDays ⟨2025, 7, 15⟩, false⟩) []
            "s" (some "week") ⟨2025, 7, 15⟩).totalErrors 30 :=
  ⟨⟨by decide, by decide, by decide, by decide⟩,
   (C2_unsupported_range
      (List.replicate 4 ⟨"s", "/a", none, toDays ⟨2025, 7, 15⟩, false⟩) []
      "s" ⟨2025, 7, 15⟩ "quarter" (by decide) (by decide) (by decide)
      (by decide)).2.2.2.2.2.2.1⟩

/-- C4, counterexample: a single unfixed error dated after `now` is counted
by `unfixedErrors` (lower bound only) but not by `totalErrors` (both
bounds), so `unfixedErrors = 1 > 0 = totalErrors`. -/
theorem C4_counterexample :
    ¬((loaderCompute [⟨"s", "/x", none, toDays ⟨2025, 7, 15⟩ + 1, false⟩] []
        "s" (some "week") ⟨2025, 7, 15⟩).unfixedErrors
      ≤ (loaderCompute [⟨"s", "/x", none, toDays ⟨2025, 7, 15⟩ + 1, false⟩] []
        "s" (some "week") ⟨2025, 7, 15⟩).totalErrors) := by
  decide

/-- C4, amended: whenever no stored event is dated after `now` (the upper
bound of the errors-over-time query), `unfixedErrors` is at most
`totalErrors`. -/
theorem C4_unfixed_le_total (errDb : List NotFoundError)
    (redDb : List Redirect) (shop : String) (param : Option String)
    (now : JsDate) (hts : ∀ e ∈ errDb, e.timestamp ≤ toDays now) :
    (loaderCompute errDb redDb shop param now).unfixedErrors
      ≤ (loaderCompute errDb redDb shop param now).totalErrors := by
  show unfixedErrorsQuery errDb shop (windowStartI param now)
      ≤ totalErrorsOf errDb shop (windowStartI param now) (toDays now)
  rw [totalErrorsOf_eq_length]
  unfold unfixedErrorsQuery
  rw [← List.countP_eq_length_filter, ← List.countP_eq_length_filter]
  apply List.countP_mono_left
  intro e he hp
  have hn := hts e he
  unfold eventInFullWindow
  simp only [Bool.and_eq_true, beq_iff_eq, decide_eq_true_eq] at hp ⊢
  exact ⟨⟨hp.1.1, hp.2⟩, by omega⟩

/-- Witness for C4 on one event dated inside the window. -/
theorem C4_unfixed_le_total_witness :
    (∀ e ∈ ([⟨"s", "/a", none, toDays ⟨2025, 7, 15⟩, false⟩] :
        List NotFoundError), e.timestamp ≤ toDays ⟨2025, 7, 15⟩) ∧
    (loaderCompute [⟨"s", "/a", none, toDays ⟨2025, 7, 15⟩, false⟩] [] "s"
        (some "week") ⟨2025, 7, 15⟩).unfixedErrors
      ≤ (loaderCompute [⟨"s", "/a", none, toDays ⟨2025, 7, 15⟩, false⟩] [] "s"
        (some "week") ⟨2025, 7, 15⟩).totalErrors :=
  ⟨by decide,
   C4_unfixed_le_total [⟨"s", "/a", none, toDays ⟨2025, 7, 15⟩, false⟩] [] "s"
     (some "week") ⟨2025, 7, 15⟩ (by decide)⟩

/-- C5, counterexample: an event dated strictly after `now` — outside the
`[startDate, now]` window — produces a `topPaths` group, so the grouping is
not restricted to the window (only the lower bound is applied). -/
theorem C5_counterexample :
    toDays ⟨2025, 7, 15⟩
        < (⟨"s", "/late", none, toDays ⟨2025, 7, 15⟩ + 1, false⟩ :
            NotFoundError).timestamp ∧
    (loaderCompute [⟨"s", "/late", none, toDays ⟨2025, 7, 15⟩ + 1, false⟩] []
        "s" (some "week") ⟨2025, 7, 15⟩).topPaths = [("/late", 1)] := by
  constructor
  · decide
  · decide

/-- C5, amended: `topPaths` and `topReferrers` group the error events with
timestamp at least `startDate` (no upper bound) by path respectively
referer, count per group, order the groups by the grouping key itself in
descending order — not by count — and truncate to 5 respectively 3 groups,
so their lengths never exceed 5 and 3. -/
theorem C5_top_lists (errDb : List NotFoundError) (redDb : List Redirect)
    (shop : String) (param : Option String) (now : JsDate) :
    (loaderCompute errDb redDb shop param now).topPaths.length ≤ 5 ∧
    (loaderCompute errDb redDb shop param now).topReferrers.length ≤ 3 ∧
    List.Pairwise (fun p q => strGe p.1 q.1)
      (loaderCompute errDb redDb shop param now).topPaths ∧
    List.Pairwise (fun p q => refGe p.1 q.1)
      (loaderCompute errDb redDb shop param now).topReferrers ∧
    (∀ p ∈ (loaderCompute errDb redDb shop param now).topPaths,
      p.2 = (errDb.filter (eventFromStart shop (windowStartI param now))).countP
        fun e => decide (e.path = p.1)) ∧
    (∀ p ∈ (loaderCompute errDb redDb shop param now).topReferrers,
      p.2 = (errDb.filter (eventFromStart shop (windowStartI param now))).countP
        fun e => decide (e.referer = p.1)) := by
  refine ⟨?_, ?_, ?_, ?_, ?_, ?_⟩
  · show (topPathsQuery errDb shop (windowStartI param now)).length ≤ 5
    unfold topPathsQuery
    exact List.length_take_le 5 _
  · show (topReferrersQuery errDb shop (windowStartI param now)).length ≤ 3
    unfold topReferrersQuery
    exact List.length_take_le 3 _
  · show List.Pairwise _ (topPathsQuery errDb shop (windowStartI param now))
    unfold topPathsQuery
    exact (groupRows_pairwise _ strGe _).sublist (List.take_sublist 5 _)
  · show List.Pairwise _ (topReferrersQuery errDb shop (windowStartI param now))
    unfold topReferrersQuery
    exact (groupRows_pairwise _ refGe _).sublist (List.take_sublist 3 _)
  · intro p hp
    have hp' : p ∈ groupRows (fun e => e.path) strGe
        (errDb.filter (eventFromStart shop (windowStartI param now))) :=
      List.mem_of_mem_take hp
    exact groupRows_mem_snd _ _ _ p hp'
  · intro p hp
    have hp' : p ∈ groupRows (fun e => e.referer) refGe
        (errDb.filter (eventFromStart shop (windowStartI param now))) :=
      List.mem_of_mem_take hp
    exact groupRows_mem_snd _ _ _ p hp'

/-- Witness for C5: the single `topPaths` group of four identical events
carries the count of the events with that path. -/
theorem C5_top_lists_witness :
    ("/a", (4 : Nat)) ∈ (loaderCompute
        (List.replicate 4 ⟨"s", "/a", none, toDays ⟨2025, 7, 15⟩, false⟩) []
        "s" (some "week") ⟨2025, 7, 15⟩).topPaths ∧
    (4 : Nat) = ((List.replicate 4
          (⟨"s", "/a", none, toDays ⟨2025, 7, 15⟩, false⟩ : NotFoundError)).filter
        (eventFromStart "s" (windowStartI (some "week") ⟨2025, 7, 15⟩))).countP
      fun e => decide (e.path = "/a") :=
  ⟨by decide,
   (C5_top_lists
      (List.replicate 4 ⟨"s", "/a", none, toDays ⟨2025, 7, 15⟩, false⟩) []
      "s" (some "week") ⟨2025, 7, 15⟩).2.2.2.2.1 ("/a", 4) (by decide)⟩

/-- C6, counterexample: for range `"quarter"` the window is 7 days long but
`avgDaily` divides by 30: with 4 in-window errors the loader yields 0 while
rounding 4 over the 7-day window length yields 1. -/
theorem C6_counterexample :
    (loaderCompute
        (List.replicate 4 ⟨"s", "/a", none, toDays ⟨2025, 7, 15⟩, false⟩) []
        "s" (some "quarter") ⟨2025, 7, 15⟩).avgDaily
      ≠ mathRoundDiv
          (loaderCompute
            (List.replicate 4 ⟨"s", "/a", none, toDays ⟨2025, 7, 15⟩, false⟩) []
            "s" (some "quarter") ⟨2025, 7, 15⟩).totalErrors
          (toDays ⟨2025, 7, 15⟩
            - toDays (resolveStart (parseRange (some "quarter")) ⟨2025, 7, 15⟩)).toNat := by
  decide

/-- C6, amended: `avgDaily` always equals `totalErrors` divided (with
round-half-up) by the branch divisor — 1 for `"day"`, 7 for `"week"`, 30 for
everything else including `"month"` and unrecognized ranges; that divisor
matches the resolved window length for `"day"` and `"week"`, but for
`"month"` the window is a calendar month (28 to 31 days, see C3) and for
unrecognized ranges it is 7 days while the divisor is 30. -/
theorem C6_avgDaily (errDb : List NotFoundError) (redDb : List Redirect)
    (shop : String) (param : Option String) (now : JsDate) :
    (loaderCompute errDb redDb shop param now).avgDaily
      = mathRoundDiv (loaderCompute errDb redDb shop param now).totalErrors
          (avgDivisor (parseRange param)) ∧
    (∀ d : JsDate,
      toDays d - toDays (resolveStart "day" d) = (avgDivisor "day" : Int)) ∧
    (∀ d : JsDate,
      toDays d - toDays (resolveStart "week" d) = (avgDivisor "week" : Int)) := by
  refine ⟨rfl, ?_, ?_⟩
  · intro d
    rw [show (avgDivisor "day" : Int) = 1 from by decide]
    exact window_day d
  · intro d
    rw [show (avgDivisor "week" : Int) = 7 from by decide]
    exact window_week d

end Analytics

namespace Themes

/-- C8: the merged list keeps every fetched theme at its position, and its
`isActive` resolves to the stored status value for that `themeId` (the last
matching row, as the JS `Map` keeps), defaulting to `false` exactly when no
status row of the shop has that `themeId`; no theme is dropped. -/
theorem C8_theme_merge (nodes : List PlatformTheme) (rows : List ThemeStatus)
    (shop : String) (i : Nat) (t : PlatformTheme) (ht : nodes[i]? = some t) :
    (loaderThemes nodes rows shop).length = nodes.length ∧
    ∃ m : MergedTheme, (loaderThemes nodes rows shop)[i]? = some m ∧
      m.id = t.id ∧ m.name = t.name ∧ m.role = t.role ∧
      (∀ b, statusLookup (rows.filter fun r => r.shopDomain == shop) t.id
          = some b → m.isActive = b) ∧
      ((∀ r ∈ rows, r.shopDomain = shop → r.themeId ≠ t.id) →
        m.isActive = false) := by
  constructor
  · unfold loaderThemes mergeThemes
    simp
  · refine ⟨⟨t.id, t.name, t.role,
        (statusLookup (rows.filter fun r => r.shopDomain == shop) t.id).getD
          false⟩, ?_, rfl, rfl, rfl, ?_, ?_⟩
    · unfold loaderThemes mergeThemes
      rw [List.getElem?_map, ht]
      rfl
    · intro b hb
      simp [hb]
    · intro hno
      have hnone : statusLookup (rows.filter fun r => r.shopDomain == shop)
          t.id = none := by
        rw [statusLookup_eq_none_iff]
        intro r hr
        have hm := List.mem_filter.mp hr
        exact hno r hm.1 (by simpa using hm.2)
      simp [hnone]

/-- Witness for C8 on a one-theme list with no status rows. -/
theorem C8_theme_merge_witness :
    (([⟨"t1", "Dawn", "main"⟩] : List PlatformTheme)[0]?
        = some ⟨"t1", "Dawn", "main"⟩) ∧
    (loaderThemes [⟨"t1", "Dawn", "main"⟩] [] "s").length
      = ([⟨"t1", "Dawn", "main"⟩] : List PlatformTheme).length :=
  ⟨rfl,
   (C8_theme_merge [⟨"t1", "Dawn", "main"⟩] [] "s" 0 ⟨"t1", "Dawn", "main"⟩
      rfl).1⟩

/-- C10: the merge preserves the length and order of the platform theme list
and leaves `id`, `name` and `role` of every entry unchanged — stripping the
added `isActive` field gives back exactly the input list. -/
theorem C10_frame (nodes : List PlatformTheme) (rows : List ThemeStatus)
    (shop : String) :
    (loaderThemes nodes rows shop).length = nodes.length ∧
    (loaderThemes nodes rows shop).map
        (fun m => PlatformTheme.mk m.id m.name m.role) = nodes := by
  constructor
  · unfold loaderThemes mergeThemes
    simp
  · unfold loaderThemes mergeThemes
    rw [List.map_map]
    exact List.map_id nodes

end Themes
